import Mathlib

/-!
Shallow embedding of the golang-todo-app HTTP handlers (`getTodos`,
`createTodo`, `updateTodo`, `deleteTodo`) and the slice of the MongoDB driver
they use (`primitive.ObjectIDFromHex`, `primitive.ObjectID.Hex`,
`strings.TrimSpace`, `InsertOne` / `UpdateOne` / `DeleteOne` on the `todo`
collection), together with theorems settling the specification claims.

Modelling conventions:
* A MongoDB `ObjectID` is a natural number below `16^24` (12 bytes); its hex
  display form is the 24-character lowercase hex string.  `NewObjectID` is
  modelled by a monotone process-wide counter (`Store.nextId`): successive
  calls always yield distinct values, matching the driver's counter-based
  generator within one process.
* A stored document carries the driver-assigned insertion key `_id`
  (field `key` below, generated by `InsertOne` because `TodoModel` declares
  no `_id` bson field) plus the `TodoModel` fields, whose bson tags are
  `id`, `title`, `completed`, `created_at`.
* Request bodies arrive already lexed: `Decoded α` is the outcome of
  `json.Decoder.Decode` — on failure it carries the error text and the
  partially-populated struct, exactly as Go leaves the target value.
* Fallible driver calls take an `Option String` error injection parameter
  (`none` = the call succeeds); the list handler takes a `FindOutcome`
  distinguishing a `Find` error from a `cursor.All` error.
* A handler run produces the list of JSON responses written (status code and
  body), the resulting store, and `fatal` — `some msg` iff the run hit
  `log.Fatal` (process termination).
-/

namespace TodoApp

/-- JSON values as produced by the `renderer` package. -/
inductive JVal where
  | str (s : String)
  | num (n : Nat)
  | boolean (b : Bool)
  | time (t : Nat)
  | oid (n : Nat)
  | obj (fields : List (String × JVal))
  | arr (elems : List JVal)

/-- Lowercase hex digit for a value below 16 (as in `encoding/hex`). -/
def hexDigitChar (n : Nat) : Char :=
  match n with
  | 0 => '0' | 1 => '1' | 2 => '2' | 3 => '3' | 4 => '4'
  | 5 => '5' | 6 => '6' | 7 => '7' | 8 => '8' | 9 => '9'
  | 10 => 'a' | 11 => 'b' | 12 => 'c' | 13 => 'd' | 14 => 'e' | 15 => 'f'
  | _ => '*'

/-- `encoding/hex` accepts `0-9`, `a-f` and `A-F` (code points 48-57,
97-102, 65-70). -/
def isHexChar (c : Char) : Bool :=
  (48 ≤ c.toNat && c.toNat ≤ 57) || (97 ≤ c.toNat && c.toNat ≤ 102) ||
  (65 ≤ c.toNat && c.toNat ≤ 70)

/-- Numeric value of a hex character (0 for non-hex input). -/
def hexCharVal (c : Char) : Nat :=
  if 48 ≤ c.toNat && c.toNat ≤ 57 then c.toNat - 48
  else if 97 ≤ c.toNat && c.toNat ≤ 102 then c.toNat - 97 + 10
  else if 65 ≤ c.toNat && c.toNat ≤ 70 then c.toNat - 65 + 10
  else 0

/-- `k` hex digits of `n`, least significant first. -/
def toHexLE : Nat → Nat → List Char
  | _, 0 => []
  | n, k + 1 => hexDigitChar (n % 16) :: toHexLE (n / 16) k

/-- Big-endian reading of hex digits, least significant last:
the value of `cs.reverse` read little-endian. -/
def parseHexLE : List Char → Nat
  | [] => 0
  | c :: cs => hexCharVal c + 16 * parseHexLE cs

/-- `primitive.ObjectID.Hex`: the 24-character lowercase hex rendering. -/
def oidHex (n : Nat) : List Char := (toHexLE n 24).reverse

/-- `primitive.ObjectIDFromHex`: rejects strings whose length is not 24
(`ErrInvalidHex`), then hex-decodes, rejecting non-hex bytes. -/
def objectIDFromHexList (cs : List Char) : Except String Nat :=
  if cs.length ≠ 24 then
    Except.error "the provided hex string is not a valid ObjectID"
  else if cs.all isHexChar then Except.ok (parseHexLE cs.reverse)
  else Except.error "encoding/hex: invalid byte in hex string"

/-- Go `unicode.IsSpace` (the `White_Space` property), used by
`strings.TrimSpace`. -/
def goIsSpace (c : Char) : Bool :=
  c.toNat = 9 || c.toNat = 10 || c.toNat = 11 || c.toNat = 12 ||
  c.toNat = 13 || c.toNat = 32 || c.toNat = 0x85 || c.toNat = 0xA0 ||
  c.toNat = 0x1680 || (0x2000 ≤ c.toNat && c.toNat ≤ 0x200A) ||
  c.toNat = 0x2028 || c.toNat = 0x2029 || c.toNat = 0x202F ||
  c.toNat = 0x205F || c.toNat = 0x3000

/-- `strings.TrimSpace` on a Go string viewed as its list of runes. -/
def trimList (cs : List Char) : List Char :=
  ((cs.dropWhile goIsSpace).reverse.dropWhile goIsSpace).reverse

/-- A document of the `todo` collection: `key` is the driver-assigned `_id`
(`TodoModel` has no `_id` bson field, so `InsertOne` generates one); the
remaining fields are `TodoModel`'s, stored under bson tags `id`, `title`,
`completed`, `created_at`. -/
structure StoredDoc where
  key : Nat
  id : Nat
  title : String
  completed : Bool
  createdAt : Nat
deriving DecidableEq, Repr

/-- The `todo` collection plus the process-wide `ObjectID` generator state. -/
structure Store where
  docs : List StoredDoc
  nextId : Nat
deriving DecidableEq, Repr

/-- Store sanity: every identifier already handed out is below the counter,
and identifiers fit in 12 bytes. -/
def Store.WF (s : Store) : Prop :=
  (∀ d ∈ s.docs, d.id < s.nextId ∧ d.key < s.nextId) ∧ s.nextId + 2 ≤ 16 ^ 24

/-- Wire representation `Todo` (json tags `id`, `title`, `completed`,
`created_at`); the identifier is the hex display string. -/
structure Todo where
  id : List Char
  title : String
  completed : Bool
  createdAt : Nat
deriving DecidableEq, Repr

/-- The per-item conversion done in `getTodos`' loop:
`Todo{ID: td.ID.Hex(), Title: td.Title, ...}`. -/
def toWire (d : StoredDoc) : Todo :=
  ⟨oidHex d.id, d.title, d.completed, d.createdAt⟩

/-- JSON encoding of a wire `Todo`. -/
def todoJson (t : Todo) : JVal :=
  .obj [("id", .str ⟨t.id⟩), ("title", .str t.title),
        ("completed", .boolean t.completed), ("created_at", .time t.createdAt)]

/-- `CreateTodo`: the create request body. -/
structure CreateTodo where
  title : String

/-- `UpdateTodo`: the update request body. -/
structure UpdateTodo where
  title : String
  completed : Bool

/-- Outcome of `json.Decoder.Decode` into a struct of type `α`: on failure Go
returns the error and leaves in the target whatever fields were set before
the error occurred (`filled`). -/
inductive Decoded (α : Type) where
  | ok (v : α)
  | fail (err : String) (filled : α)

/-- Outcome of the `Find` + `cursor.All` pair in `getTodos`. -/
inductive FindOutcome where
  | ok
  | findErr (e : String)
  | cursorErr (e : String)

/-- The result of running one handler: every JSON response written (status,
body) in order, the store afterwards, and `some msg` iff `log.Fatal` fired. -/
structure HResult where
  responses : List (Nat × JVal)
  store : Store
  fatal : Option String

/-- `checkError`: `log.Fatal` on a non-nil error, returning the fatal message
this run dies with. -/
def checkError (err : Option String) : Option String := err

/-- `getTodos`: fetch all documents, convert each to wire form, respond 200;
a `Find` error yields a 400 envelope, a `cursor.All` error goes to
`checkError`, i.e. `log.Fatal`. -/
def getTodos (s : Store) (fo : FindOutcome) : HResult :=
  match fo with
  | .findErr e =>
      ⟨[(400, .obj [("message", .str "Could not fetch the todo collection"),
                    ("error", .str e)])], s, none⟩
  | .cursorErr e => ⟨[], s, checkError (some e)⟩
  | .ok =>
      ⟨[(200, .obj [("message", .str "All todos retrieved"),
                    ("data", .arr ((s.docs.map toWire).map todoJson))])],
       s, none⟩

/-- `createTodo`: decode failure → 400 and return; empty title → 400 and
return; otherwise build a `TodoModel` with a fresh `ObjectID`, `Completed`
false and `CreatedAt` now, insert it (the driver assigns a fresh `_id`,
returned as `InsertedID`), and respond 201 with that `InsertedID`. -/
def createTodo (s : Store) (body : Decoded CreateTodo) (now : Nat)
    (insertErr : Option String) : HResult :=
  match body with
  | .fail _ _ =>
      ⟨[(400, .obj [("message", .str "could not decode data")])], s, none⟩
  | .ok req =>
      if req.title = "" then
        ⟨[(400, .obj [("message", .str "please add a title")])], s, none⟩
      else
        let genId := s.nextId
        let s1 : Store := ⟨s.docs, s.nextId + 1⟩
        match insertErr with
        | some e =>
            ⟨[(500, .obj [("message", .str "Failed to insert data into db"),
                          ("error", .str e)])], s1, none⟩
        | none =>
            let key := s1.nextId
            ⟨[(201, .obj [("message", .str "Todo created successfully"),
                          ("ID", .oid key)])],
             ⟨s1.docs ++ [⟨key, genId, req.title, false, now⟩], s1.nextId + 1⟩,
             none⟩

/-- `UpdateOne` with filter `{"id": x}` and `$set` of `title`, `completed`:
rewrites the first document whose `id` field is `x`, returning the new
collection and `ModifiedCount` (0 when nothing matched, and also when the
matched document already held exactly the new values). -/
def setFirst (x : Nat) (t : String) (c : Bool) :
    List StoredDoc → List StoredDoc × Nat
  | [] => ([], 0)
  | d :: ds =>
      if d.id = x then
        (⟨d.key, d.id, t, c, d.createdAt⟩ :: ds,
         if d.title = t ∧ d.completed = c then 0 else 1)
      else
        let r := setFirst x t c ds
        (d :: r.1, r.2)

/-- `DeleteOne` with filter `{"id": x}`: removes the first document whose
`id` field is `x`, returning the new collection and `DeletedCount`. -/
def deleteFirst (x : Nat) : List StoredDoc → List StoredDoc × Nat
  | [] => ([], 0)
  | d :: ds =>
      if d.id = x then (ds, 1)
      else
        let r := deleteFirst x ds
        (d :: r.1, r.2)

/-- `updateTodo`: trim and parse the path id (parse failure → 500 envelope
with the parse error); decode the body — on failure a 400 response carrying
the bare error string is written but, as in the source, execution falls
through; empty title → 400 envelope; otherwise `UpdateOne` on filter
`{"id": res}` and a 200 envelope with the `ModifiedCount`. -/
def updateTodo (s : Store) (idParam : List Char) (body : Decoded UpdateTodo)
    (dbErr : Option String) : HResult :=
  match objectIDFromHexList (trimList idParam) with
  | .error e =>
      ⟨[(500, .obj [("message", .str "The id is Invalid"),
                    ("error", .str e)])], s, none⟩
  | .ok res =>
      let decoded : List (Nat × JVal) × UpdateTodo :=
        match body with
        | .ok v => ([], v)
        | .fail e filled => ([(400, .str e)], filled)
      if decoded.2.title = "" then
        ⟨decoded.1 ++ [(400, .obj [("message", .str "Title connot be empty")])],
         s, none⟩
      else
        match dbErr with
        | some e =>
            ⟨decoded.1 ++
               [(500, .obj [("message", .str "Failed to update data in the db"),
                            ("error", .str e)])], s, none⟩
        | none =>
            let r := setFirst res decoded.2.title decoded.2.completed s.docs
            ⟨decoded.1 ++
               [(200, .obj [("message", .str "Todo updated successfully"),
                            ("data", .num r.2)])],
             ⟨r.1, s.nextId⟩, none⟩

/-- `deleteTodo`: trim and parse the path id (parse failure → 400 with the
bare error string); `DeleteOne` on filter `{"id": res}`; respond 200 with the
raw delete result. -/
def deleteTodo (s : Store) (idParam : List Char) (dbErr : Option String) :
    HResult :=
  match objectIDFromHexList (trimList idParam) with
  | .error e => ⟨[(400, .str e)], s, none⟩
  | .ok res =>
      match dbErr with
      | some e =>
          ⟨[(500, .obj [("message",
                          .str "an error occured while deleting todo item"),
                        ("error", .str e)])], s, none⟩
      | none =>
          let r := deleteFirst res s.docs
          ⟨[(200, .obj [("message", .str "item deleted successfully"),
                        ("data", .obj [("DeletedCount", .num r.2)])])],
           ⟨r.1, s.nextId⟩, none⟩

/-! ### Helper lemmas: hex round trip -/

theorem toHexLE_length (n k : Nat) : (toHexLE n k).length = k := by
  induction k generalizing n with
  | zero => rfl
  | succ k ih => simp [toHexLE, ih]

theorem hexCharVal_hexDigitChar : ∀ m < 16, hexCharVal (hexDigitChar m) = m := by
  decide

theorem isHexChar_hexDigitChar : ∀ m < 16, isHexChar (hexDigitChar m) = true := by
  decide

theorem toHexLE_all_hex (n k : Nat) : (toHexLE n k).all isHexChar = true := by
  induction k generalizing n with
  | zero => rfl
  | succ k ih =>
      simp only [toHexLE, List.all_cons, Bool.and_eq_true]
      exact ⟨isHexChar_hexDigitChar (n % 16) (Nat.mod_lt n (by norm_num)), ih (n / 16)⟩

theorem parseHexLE_toHexLE (k n : Nat) : parseHexLE (toHexLE n k) = n % 16 ^ k := by
  induction k generalizing n with
  | zero => simp [toHexLE, parseHexLE, Nat.mod_one]
  | succ k ih =>
      have hm : n % 16 < 16 := Nat.mod_lt n (by norm_num)
      rw [toHexLE, parseHexLE, ih (n / 16), hexCharVal_hexDigitChar (n % 16) hm,
        pow_succ', Nat.mod_mul]

theorem objectIDFromHexList_oidHex (n : Nat) (hn : n < 16 ^ 24) :
    objectIDFromHexList (oidHex n) = Except.ok n := by
  have hlen : (oidHex n).length = 24 := by
    simp [oidHex, toHexLE_length]
  have hall : (oidHex n).all isHexChar = true := by
    simp only [oidHex, List.all_reverse]
    exact toHexLE_all_hex n 24
  unfold objectIDFromHexList
  rw [if_neg (by simp [hlen]), if_pos hall]
  simp only [oidHex, List.reverse_reverse]
  rw [parseHexLE_toHexLE, Nat.mod_eq_of_lt hn]

/-! ### Helper lemmas: TrimSpace -/

theorem dropWhile_append_all (p : Char → Bool) :
    ∀ w l : List Char, (∀ c ∈ w, p c = true) →
      (w ++ l).dropWhile p = l.dropWhile p := by
  intro w
  induction w with
  | nil => intro l _; rfl
  | cons a t ih =>
      intro l hw
      have ha : p a = true := hw a (List.mem_cons_self a t)
      simp only [List.cons_append, List.dropWhile_cons, ha, if_true]
      exact ih l fun c hc => hw c (List.mem_cons_of_mem a hc)

theorem dropWhile_nil_of_all (p : Char → Bool) (w : List Char)
    (hw : ∀ c ∈ w, p c = true) : w.dropWhile p = [] := by
  have h := dropWhile_append_all p w [] hw
  simpa using h

theorem dropWhile_append_nonempty (p : Char → Bool) :
    ∀ l w : List Char, l.dropWhile p ≠ [] →
      (l ++ w).dropWhile p = l.dropWhile p ++ w := by
  intro l
  induction l with
  | nil => intro w h; exact absurd rfl h
  | cons a t ih =>
      intro w h
      cases hpa : p a with
      | true =>
          simp only [List.cons_append, List.dropWhile_cons, hpa, if_true] at h ⊢
          exact ih w h
      | false =>
          simp [List.cons_append, List.dropWhile_cons, hpa]

theorem dropWhile_self_of_none (p : Char → Bool) (l : List Char)
    (hl : ∀ c ∈ l, p c = false) : l.dropWhile p = l := by
  cases l with
  | nil => rfl
  | cons a t =>
      simp [List.dropWhile_cons, hl a (List.mem_cons_self a t)]

theorem all_dropWhile_nil (p : Char → Bool) :
    ∀ l : List Char, l.dropWhile p = [] → ∀ c ∈ l, p c = true := by
  intro l
  induction l with
  | nil => intro _ c hc; cases hc
  | cons a t ih =>
      intro h c hc
      cases hpa : p a with
      | false => simp [List.dropWhile_cons, hpa] at h
      | true =>
          simp only [List.dropWhile_cons, hpa, if_true] at h
          rcases List.mem_cons.mp hc with rfl | hct
          · exact hpa
          · exact ih h c hct

theorem trimList_pad (w1 h w2 : List Char)
    (h1 : ∀ c ∈ w1, goIsSpace c = true) (h2 : ∀ c ∈ w2, goIsSpace c = true) :
    trimList (w1 ++ h ++ w2) = trimList h := by
  unfold trimList
  rw [List.append_assoc, dropWhile_append_all _ w1 _ h1]
  by_cases hh : h.dropWhile goIsSpace = []
  · have hall : ∀ c ∈ h, goIsSpace c = true := all_dropWhile_nil _ h hh
    rw [dropWhile_append_all _ h _ hall, dropWhile_nil_of_all _ w2 h2, hh]
  · rw [dropWhile_append_nonempty _ h w2 hh, List.reverse_append,
      dropWhile_append_all _ w2.reverse _
        (fun c hc => h2 c (List.mem_reverse.mp hc))]

theorem space_not_hex (c : Char) (hs : goIsSpace c = true) :
    isHexChar c = false := by
  simp only [goIsSpace, Bool.or_eq_true, Bool.and_eq_true,
    decide_eq_true_eq] at hs
  simp only [isHexChar, Bool.or_eq_false_iff, Bool.and_eq_false_iff,
    decide_eq_false_iff_not, not_le]
  omega

theorem trimList_hex (h : List Char) (hh : h.all isHexChar = true) :
    trimList h = h := by
  have hns : ∀ c ∈ h, goIsSpace c = false := by
    intro c hc
    cases hsp : goIsSpace c with
    | false => rfl
    | true =>
        have := List.all_eq_true.mp hh c hc
        rw [space_not_hex c hsp] at this
        cases this
  unfold trimList
  rw [dropWhile_self_of_none _ _ hns,
    dropWhile_self_of_none _ _ (fun c hc => hns c (List.mem_reverse.mp hc)),
    List.reverse_reverse]

/-! ### Helper lemmas: UpdateOne / DeleteOne -/

theorem setFirst_nomatch (x : Nat) (t : String) (c : Bool) :
    ∀ l : List StoredDoc, (∀ d ∈ l, d.id ≠ x) → setFirst x t c l = (l, 0) := by
  intro l
  induction l with
  | nil => intro _; rfl
  | cons d ds ih =>
      intro h
      have hd : d.id ≠ x := h d (List.mem_cons_self d ds)
      simp [setFirst, hd, ih fun e he => h e (List.mem_cons_of_mem d he)]

theorem setFirst_append_match (x : Nat) (t : String) (c : Bool)
    (l1 : List StoredDoc) (d : StoredDoc) (l2 : List StoredDoc)
    (hl1 : ∀ e ∈ l1, e.id ≠ x) (hd : d.id = x) :
    setFirst x t c (l1 ++ d :: l2) =
      (l1 ++ ⟨d.key, d.id, t, c, d.createdAt⟩ :: l2,
       if d.title = t ∧ d.completed = c then 0 else 1) := by
  induction l1 with
  | nil => simp [setFirst, hd]
  | cons e l1 ih =>
      have he : e.id ≠ x := hl1 e (List.mem_cons_self e l1)
      have ih' := ih fun e' h' => hl1 e' (List.mem_cons_of_mem e h')
      simp [setFirst, he, ih']

theorem deleteFirst_nomatch (x : Nat) :
    ∀ l : List StoredDoc, (∀ d ∈ l, d.id ≠ x) → deleteFirst x l = (l, 0) := by
  intro l
  induction l with
  | nil => intro _; rfl
  | cons d ds ih =>
      intro h
      have hd : d.id ≠ x := h d (List.mem_cons_self d ds)
      simp [deleteFirst, hd, ih fun e he => h e (List.mem_cons_of_mem d he)]

theorem deleteFirst_append_match (x : Nat) (l1 : List StoredDoc)
    (d : StoredDoc) (l2 : List StoredDoc)
    (hl1 : ∀ e ∈ l1, e.id ≠ x) (hd : d.id = x) :
    deleteFirst x (l1 ++ d :: l2) = (l1 ++ l2, 1) := by
  induction l1 with
  | nil => simp [deleteFirst, hd]
  | cons e l1 ih =>
      have he : e.id ≠ x := hl1 e (List.mem_cons_self e l1)
      have ih' := ih fun e' h' => hl1 e' (List.mem_cons_of_mem e h')
      simp [deleteFirst, he, ih']

/-! ### Claim theorems -/

/-- Claim C1 (code evidence for the bug): in `updateTodo` a body that fails to
JSON-decode does not stop the handler.  At a concrete request whose decode
error leaves `title` partially filled with `"x"` (as `json.Decoder.Decode`
does when the error occurs after the `title` field), the handler writes the
400 error response and then still runs the title validation and the storage
update: two responses are written and the stored record is modified, contrary
to the claim that the handler returns immediately with no further validation
and no storage write. -/
theorem updateTodo_decode_fallthrough :
    (updateTodo ⟨[⟨1, 5, "old", false, 0⟩], 6⟩ (oidHex 5)
        (.fail "json: cannot unmarshal number into Go struct field" ⟨"x", false⟩)
        none).responses.length = 2 ∧
    (updateTodo ⟨[⟨1, 5, "old", false, 0⟩], 6⟩ (oidHex 5)
        (.fail "json: cannot unmarshal number into Go struct field" ⟨"x", false⟩)
        none).store.docs = [⟨1, 5, "x", false, 0⟩] := by
  exact ⟨rfl, rfl⟩

/-- Claim C2 (counterexample): a `cursor.All` error in the list handler is NOT
converted to a JSON error response — it goes to `checkError`, i.e.
`log.Fatal`, so a plain handler-level storage error terminates the process. -/
theorem getTodos_cursorErr_fatal :
    (getTodos ⟨[], 0⟩ (.cursorErr "cursor decode failure")).fatal ≠ none := by
  simp [getTodos, checkError]

/-- Claim C2 (amended): every error in the create, update and delete handlers,
and a `Find` error in the list handler, is handled locally without
terminating the process; the one exception inside the handlers is a
`cursor.All` error in the list handler, which reaches `checkError` and is
process-fatal (in addition to the startup and shutdown failures). -/
theorem errors_local_except_cursor :
    (∀ s b now ie, (createTodo s b now ie).fatal = none) ∧
    (∀ s ids b e, (updateTodo s ids b e).fatal = none) ∧
    (∀ s ids e, (deleteTodo s ids e).fatal = none) ∧
    (∀ s e, (getTodos s (.findErr e)).fatal = none) ∧
    (∀ s, (getTodos s .ok).fatal = none) ∧
    (∀ s e, (getTodos s (.cursorErr e)).fatal = some e) := by
  refine ⟨?_, ?_, ?_, fun s e => rfl, fun s => rfl, fun s e => rfl⟩
  · intro s b now ie
    unfold createTodo
    split
    · rfl
    · split
      · rfl
      · split <;> rfl
  · intro s ids b e
    unfold updateTodo
    split
    · rfl
    · dsimp only
      split
      · rfl
      · split <;> rfl
  · intro s ids e
    unfold deleteTodo
    split
    · rfl
    · split <;> rfl

/-- Claim C4: when the trimmed path identifier fails to parse as an ObjectID,
the update handler responds 500 with an envelope carrying the parse error,
the delete handler responds 400 (with the bare parse error), and neither
alters the store. -/
theorem malformed_id_rejected (s : Store) (ids : List Char)
    (b : Decoded UpdateTodo) (e1 e2 : Option String) (err : String)
    (hp : objectIDFromHexList (trimList ids) = .error err) :
    updateTodo s ids b e1 =
      ⟨[(500, .obj [("message", .str "The id is Invalid"),
                    ("error", .str err)])], s, none⟩ ∧
    deleteTodo s ids e2 = ⟨[(400, .str err)], s, none⟩ := by
  constructor
  · unfold updateTodo; rw [hp]
  · unfold deleteTodo; rw [hp]

/-- Witness for C4 at the malformed identifier "xyz". -/
theorem malformed_id_rejected_witness :
    objectIDFromHexList (trimList "xyz".data) =
      .error "the provided hex string is not a valid ObjectID" ∧
    (updateTodo ⟨[], 0⟩ "xyz".data (.ok ⟨"t", true⟩) none =
      ⟨[(500, .obj [("message", .str "The id is Invalid"),
                    ("error",
                     .str "the provided hex string is not a valid ObjectID")])],
       ⟨[], 0⟩, none⟩ ∧
     deleteTodo ⟨[], 0⟩ "xyz".data none =
      ⟨[(400, .str "the provided hex string is not a valid ObjectID")],
       ⟨[], 0⟩, none⟩) :=
  ⟨rfl, malformed_id_rejected ⟨[], 0⟩ "xyz".data (.ok ⟨"t", true⟩) none none _ rfl⟩

/-- Claim C5: create with a non-empty title: the inserted record has
`completed = false` and `createdAt = now`, the response is a 201 carrying the
store-assigned insertion key of the new record, and (in a well-formed store)
that key is a fresh identifier, not yet used by any stored document. -/
theorem createTodo_success (s : Store) (t : String) (now : Nat)
    (ht : t ≠ "") (hwf : s.WF) :
    createTodo s (.ok ⟨t⟩) now none =
      ⟨[(201, .obj [("message", .str "Todo created successfully"),
                    ("ID", .oid (s.nextId + 1))])],
       ⟨s.docs ++ [⟨s.nextId + 1, s.nextId, t, false, now⟩], s.nextId + 2⟩,
       none⟩ ∧
    (∀ d ∈ s.docs, d.key ≠ s.nextId + 1 ∧ d.id ≠ s.nextId + 1) := by
  constructor
  · simp [createTodo, ht]
  · intro d hd
    have h := hwf.1 d hd
    omega

/-- Witness for C5 on the empty store. -/
theorem createTodo_success_witness :
    ("a" ≠ "" ∧ Store.WF ⟨[], 0⟩) ∧
    (createTodo ⟨[], 0⟩ (.ok ⟨"a"⟩) 7 none =
      ⟨[(201, .obj [("message", .str "Todo created successfully"),
                    ("ID", .oid 1)])],
       ⟨[⟨1, 0, "a", false, 7⟩], 2⟩, none⟩ ∧
     (∀ d ∈ ([] : List StoredDoc), d.key ≠ 1 ∧ d.id ≠ 1)) :=
  ⟨⟨by decide, ⟨fun d hd => absurd hd (List.not_mem_nil d), by norm_num⟩⟩,
   createTodo_success ⟨[], 0⟩ "a" 7 (by decide)
     ⟨fun d hd => absurd hd (List.not_mem_nil d), by norm_num⟩⟩

/-- Claim C6: a create request that decodes with an empty title (a missing
title decodes to the empty string) gets a 400 response with message
"please add a title", and the store is unchanged. -/
theorem createTodo_empty_title (s : Store) (now : Nat) (ie : Option String) :
    createTodo s (.ok ⟨""⟩) now ie =
      ⟨[(400, .obj [("message", .str "please add a title")])], s, none⟩ := by
  simp [createTodo]

/-- Claim C7: a successful update rewrites exactly the `title` and `completed`
fields of the first record matching the identifier — its `key`, `id` and
`createdAt`, and every other record, are untouched; the response is a single
200 envelope carrying the `ModifiedCount`; when no record matches, the store
is unchanged and the count is 0 but the response is still the 200 success
envelope. -/
theorem updateTodo_frame (s : Store) (ids : List Char) (x : Nat)
    (t : String) (c : Bool)
    (hp : objectIDFromHexList (trimList ids) = .ok x) (ht : t ≠ "") :
    (updateTodo s ids (.ok ⟨t, c⟩) none).fatal = none ∧
    (updateTodo s ids (.ok ⟨t, c⟩) none).store.nextId = s.nextId ∧
    (updateTodo s ids (.ok ⟨t, c⟩) none).responses =
      [(200, .obj [("message", .str "Todo updated successfully"),
                   ("data", .num (setFirst x t c s.docs).2)])] ∧
    ((∀ d ∈ s.docs, d.id ≠ x) →
      (updateTodo s ids (.ok ⟨t, c⟩) none).store.docs = s.docs ∧
      (setFirst x t c s.docs).2 = 0) ∧
    (∀ l1 d l2, s.docs = l1 ++ d :: l2 → d.id = x → (∀ e ∈ l1, e.id ≠ x) →
      (updateTodo s ids (.ok ⟨t, c⟩) none).store.docs =
        l1 ++ (⟨d.key, d.id, t, c, d.createdAt⟩ : StoredDoc) :: l2 ∧
      (setFirst x t c s.docs).2 =
        (if d.title = t ∧ d.completed = c then 0 else 1)) := by
  have hu : updateTodo s ids (.ok ⟨t, c⟩) none =
      ⟨[(200, .obj [("message", .str "Todo updated successfully"),
                    ("data", .num (setFirst x t c s.docs).2)])],
       ⟨(setFirst x t c s.docs).1, s.nextId⟩, none⟩ := by
    unfold updateTodo
    rw [hp]
    dsimp only
    rw [if_neg ht]
    rfl
  rw [hu]
  refine ⟨rfl, rfl, rfl, ?_, ?_⟩
  · intro h
    rw [setFirst_nomatch x t c s.docs h]
    exact ⟨rfl, rfl⟩
  · intro l1 d l2 hdec hd hl1
    rw [hdec, setFirst_append_match x t c l1 d l2 hl1 hd]
    exact ⟨rfl, rfl⟩

/-- Witness for C7 on a one-document store addressed by its stored `id`. -/
theorem updateTodo_frame_witness :
    objectIDFromHexList (trimList (oidHex 5)) = .ok 5 ∧ "new" ≠ "" ∧
    ((updateTodo ⟨[⟨1, 5, "old", false, 0⟩], 6⟩ (oidHex 5) (.ok ⟨"new", true⟩)
        none).fatal = none ∧
     (updateTodo ⟨[⟨1, 5, "old", false, 0⟩], 6⟩ (oidHex 5) (.ok ⟨"new", true⟩)
        none).store.nextId = (⟨[⟨1, 5, "old", false, 0⟩], 6⟩ : Store).nextId ∧
     (updateTodo ⟨[⟨1, 5, "old", false, 0⟩], 6⟩ (oidHex 5) (.ok ⟨"new", true⟩)
        none).responses =
       [(200, .obj [("message", .str "Todo updated successfully"),
                    ("data",
                     .num (setFirst 5 "new" true
                        (⟨[⟨1, 5, "old", false, 0⟩], 6⟩ : Store).docs).2)])] ∧
     ((∀ d ∈ (⟨[⟨1, 5, "old", false, 0⟩], 6⟩ : Store).docs, d.id ≠ 5) →
       (updateTodo ⟨[⟨1, 5, "old", false, 0⟩], 6⟩ (oidHex 5) (.ok ⟨"new", true⟩)
          none).store.docs = (⟨[⟨1, 5, "old", false, 0⟩], 6⟩ : Store).docs ∧
       (setFirst 5 "new" true
          (⟨[⟨1, 5, "old", false, 0⟩], 6⟩ : Store).docs).2 = 0) ∧
     (∀ l1 d l2,
        (⟨[⟨1, 5, "old", false, 0⟩], 6⟩ : Store).docs = l1 ++ d :: l2 →
        d.id = 5 → (∀ e ∈ l1, e.id ≠ 5) →
        (updateTodo ⟨[⟨1, 5, "old", false, 0⟩], 6⟩ (oidHex 5)
           (.ok ⟨"new", true⟩) none).store.docs =
          l1 ++ (⟨d.key, d.id, "new", true, d.createdAt⟩ : StoredDoc) :: l2 ∧
        (setFirst 5 "new" true
           (⟨[⟨1, 5, "old", false, 0⟩], 6⟩ : Store).docs).2 =
          (if d.title = "new" ∧ d.completed = true then 0 else 1))) :=
  ⟨rfl, by decide,
   updateTodo_frame ⟨[⟨1, 5, "old", false, 0⟩], 6⟩ (oidHex 5) 5 "new" true rfl
     (by decide)⟩

/-- Claim C9: the identifier returned in the create response is the
store-assigned insertion key (`_id`), while the generated ObjectID is stored
under the separate field `id`; the two are distinct, update and delete filter
on the `id` field only, so an update addressed by the identifier from the
create response matches no record (count 0, store unchanged), while a delete
addressed by the stored `id` removes the created record. -/
theorem create_response_id_distinct (s : Store) (t t2 : String) (c2 : Bool)
    (now : Nat) (ht : t ≠ "") (ht2 : t2 ≠ "") (hwf : s.WF) :
    (createTodo s (.ok ⟨t⟩) now none).responses =
      [(201, .obj [("message", .str "Todo created successfully"),
                   ("ID", .oid (s.nextId + 1))])] ∧
    (createTodo s (.ok ⟨t⟩) now none).store.docs =
      s.docs ++ [⟨s.nextId + 1, s.nextId, t, false, now⟩] ∧
    s.nextId + 1 ≠ s.nextId ∧
    updateTodo (createTodo s (.ok ⟨t⟩) now none).store (oidHex (s.nextId + 1))
        (.ok ⟨t2, c2⟩) none =
      ⟨[(200, .obj [("message", .str "Todo updated successfully"),
                    ("data", .num 0)])],
       (createTodo s (.ok ⟨t⟩) now none).store, none⟩ ∧
    (deleteTodo (createTodo s (.ok ⟨t⟩) now none).store (oidHex s.nextId)
        none).store.docs = s.docs := by
  have hcreate : createTodo s (.ok ⟨t⟩) now none =
      ⟨[(201, .obj [("message", .str "Todo created successfully"),
                    ("ID", .oid (s.nextId + 1))])],
       ⟨s.docs ++ [⟨s.nextId + 1, s.nextId, t, false, now⟩], s.nextId + 2⟩,
       none⟩ := by
    simp [createTodo, ht]
  rw [hcreate]
  have hb : s.nextId + 2 ≤ 16 ^ 24 := hwf.2
  have hall1 : (oidHex (s.nextId + 1)).all isHexChar = true := by
    simp only [oidHex, List.all_reverse]
    exact toHexLE_all_hex _ 24
  have hall2 : (oidHex s.nextId).all isHexChar = true := by
    simp only [oidHex, List.all_reverse]
    exact toHexLE_all_hex _ 24
  have hofh1 : objectIDFromHexList (trimList (oidHex (s.nextId + 1))) =
      Except.ok (s.nextId + 1) := by
    rw [trimList_hex _ hall1]
    exact objectIDFromHexList_oidHex _ (by omega)
  have hofh2 : objectIDFromHexList (trimList (oidHex s.nextId)) =
      Except.ok s.nextId := by
    rw [trimList_hex _ hall2]
    exact objectIDFromHexList_oidHex _ (by omega)
  have hnom1 : ∀ d ∈ s.docs ++
      [(⟨s.nextId + 1, s.nextId, t, false, now⟩ : StoredDoc)],
      d.id ≠ s.nextId + 1 := by
    intro d hd
    rcases List.mem_append.mp hd with hmem | hmem
    · have h := (hwf.1 d hmem).1
      omega
    · rcases List.mem_singleton.mp hmem with rfl
      dsimp only
      omega
  have hnom2 : ∀ d ∈ s.docs, d.id ≠ s.nextId := by
    intro d hd
    have h := (hwf.1 d hd).1
    omega
  refine ⟨rfl, rfl, by omega, ?_, ?_⟩
  · unfold updateTodo
    rw [hofh1]
    dsimp only
    rw [if_neg ht2, setFirst_nomatch _ t2 c2 _ hnom1]
    rfl
  · unfold deleteTodo
    rw [hofh2]
    dsimp only
    rw [deleteFirst_append_match s.nextId s.docs _ [] hnom2 rfl]
    simp

/-- Witness for C9 on the empty store. -/
theorem create_response_id_distinct_witness :
    ("a" ≠ "" ∧ "b" ≠ "" ∧ Store.WF ⟨[], 0⟩) ∧
    ((createTodo ⟨[], 0⟩ (.ok ⟨"a"⟩) 7 none).responses =
      [(201, .obj [("message", .str "Todo created successfully"),
                   ("ID", .oid 1)])] ∧
     (createTodo ⟨[], 0⟩ (.ok ⟨"a"⟩) 7 none).store.docs =
       [] ++ [⟨1, 0, "a", false, 7⟩] ∧
     (0 : Nat) + 1 ≠ 0 ∧
     updateTodo (createTodo ⟨[], 0⟩ (.ok ⟨"a"⟩) 7 none).store (oidHex 1)
         (.ok ⟨"b", true⟩) none =
       ⟨[(200, .obj [("message", .str "Todo updated successfully"),
                     ("data", .num 0)])],
        (createTodo ⟨[], 0⟩ (.ok ⟨"a"⟩) 7 none).store, none⟩ ∧
     (deleteTodo (createTodo ⟨[], 0⟩ (.ok ⟨"a"⟩) 7 none).store (oidHex 0)
         none).store.docs = []) :=
  ⟨⟨by decide, by decide,
    ⟨fun d hd => absurd hd (List.not_mem_nil d), by norm_num⟩⟩,
   create_response_id_distinct ⟨[], 0⟩ "a" "b" true 7 (by decide) (by decide)
     ⟨fun d hd => absurd hd (List.not_mem_nil d), by norm_num⟩⟩

/-- Claim C3: create an item, update it — addressed by the item's identifier,
i.e. the ObjectID stored in its `id` field, the one the listing displays —
with a non-empty title `t2` and `completed := true`, then list: the listing
shows `t2` and `completed = true` for that identifier, and every other stored
item appears exactly as before. -/
theorem create_update_list (s : Store) (t1 t2 : String) (now : Nat)
    (ht1 : t1 ≠ "") (ht2 : t2 ≠ "") (hwf : s.WF) :
    (updateTodo (createTodo s (.ok ⟨t1⟩) now none).store (oidHex s.nextId)
        (.ok ⟨t2, true⟩) none).store.docs =
      s.docs ++ [⟨s.nextId + 1, s.nextId, t2, true, now⟩] ∧
    (getTodos (updateTodo (createTodo s (.ok ⟨t1⟩) now none).store
        (oidHex s.nextId) (.ok ⟨t2, true⟩) none).store .ok).responses =
      [(200, .obj [("message", .str "All todos retrieved"),
                   ("data", .arr ((s.docs.map toWire).map todoJson ++
                     [todoJson ⟨oidHex s.nextId, t2, true, now⟩]))])] := by
  have hcreate : createTodo s (.ok ⟨t1⟩) now none =
      ⟨[(201, .obj [("message", .str "Todo created successfully"),
                    ("ID", .oid (s.nextId + 1))])],
       ⟨s.docs ++ [⟨s.nextId + 1, s.nextId, t1, false, now⟩], s.nextId + 2⟩,
       none⟩ := by
    simp [createTodo, ht1]
  rw [hcreate]
  have hall : (oidHex s.nextId).all isHexChar = true := by
    simp only [oidHex, List.all_reverse]
    exact toHexLE_all_hex _ 24
  have hofh : objectIDFromHexList (trimList (oidHex s.nextId)) =
      Except.ok s.nextId := by
    rw [trimList_hex _ hall]
    exact objectIDFromHexList_oidHex _ (by have := hwf.2; omega)
  have hnom : ∀ d ∈ s.docs, d.id ≠ s.nextId := by
    intro d hd
    have h := (hwf.1 d hd).1
    omega
  have hupd : (updateTodo
      (⟨s.docs ++ [⟨s.nextId + 1, s.nextId, t1, false, now⟩], s.nextId + 2⟩ :
        Store) (oidHex s.nextId) (.ok ⟨t2, true⟩) none).store.docs =
      s.docs ++ [⟨s.nextId + 1, s.nextId, t2, true, now⟩] := by
    unfold updateTodo
    rw [hofh]
    dsimp only
    rw [if_neg ht2, setFirst_append_match s.nextId t2 true s.docs _ [] hnom rfl]
  refine ⟨hupd, ?_⟩
  unfold getTodos
  rw [hupd]
  simp [toWire, todoJson]

/-- Witness for C3 on the empty store. -/
theorem create_update_list_witness :
    ("a" ≠ "" ∧ "b" ≠ "" ∧ Store.WF ⟨[], 0⟩) ∧
    ((updateTodo (createTodo ⟨[], 0⟩ (.ok ⟨"a"⟩) 7 none).store (oidHex 0)
        (.ok ⟨"b", true⟩) none).store.docs =
      [] ++ [⟨1, 0, "b", true, 7⟩] ∧
     (getTodos (updateTodo (createTodo ⟨[], 0⟩ (.ok ⟨"a"⟩) 7 none).store
        (oidHex 0) (.ok ⟨"b", true⟩) none).store .ok).responses =
      [(200, .obj [("message", .str "All todos retrieved"),
                   ("data", .arr ((([] : List StoredDoc).map toWire).map todoJson ++
                     [todoJson ⟨oidHex 0, "b", true, 7⟩]))])]) :=
  ⟨⟨by decide, by decide,
    ⟨fun d hd => absurd hd (List.not_mem_nil d), by norm_num⟩⟩,
   create_update_list ⟨[], 0⟩ "a" "b" 7 (by decide) (by decide)
     ⟨fun d hd => absurd hd (List.not_mem_nil d), by norm_num⟩⟩

/-- Claim C10: `strings.TrimSpace` runs on the path identifier before parsing
in both update and delete, so a valid 24-character hex identifier surrounded
by whitespace parses successfully and both handlers behave exactly as on the
unpadded identifier. -/
theorem trimmed_id_same_record (s : Store) (w1 h w2 : List Char)
    (b : Decoded UpdateTodo) (e1 e2 : Option String)
    (hw1 : ∀ c ∈ w1, goIsSpace c = true) (hw2 : ∀ c ∈ w2, goIsSpace c = true)
    (hlen : h.length = 24) (hhex : h.all isHexChar = true) :
    objectIDFromHexList (trimList (w1 ++ h ++ w2)) =
      Except.ok (parseHexLE h.reverse) ∧
    updateTodo s (w1 ++ h ++ w2) b e1 = updateTodo s h b e1 ∧
    deleteTodo s (w1 ++ h ++ w2) e2 = deleteTodo s h e2 := by
  have htrim : trimList (w1 ++ h ++ w2) = trimList h :=
    trimList_pad w1 h w2 hw1 hw2
  have hself : trimList h = h := trimList_hex h hhex
  refine ⟨?_, ?_, ?_⟩
  · rw [htrim, hself]
    unfold objectIDFromHexList
    rw [if_neg (by simp [hlen]), if_pos hhex]
  · unfold updateTodo
    rw [htrim]
  · unfold deleteTodo
    rw [htrim]

/-- Witness for C10: the identifier of value 3 padded by a space and a tab. -/
theorem trimmed_id_same_record_witness :
    ((∀ c ∈ [' '], goIsSpace c = true) ∧ (∀ c ∈ ['\t'], goIsSpace c = true) ∧
     (oidHex 3).length = 24 ∧ (oidHex 3).all isHexChar = true) ∧
    (objectIDFromHexList (trimList ([' '] ++ oidHex 3 ++ ['\t'])) =
      Except.ok (parseHexLE (oidHex 3).reverse) ∧
     updateTodo ⟨[], 0⟩ ([' '] ++ oidHex 3 ++ ['\t']) (.ok ⟨"t", true⟩) none =
       updateTodo ⟨[], 0⟩ (oidHex 3) (.ok ⟨"t", true⟩) none ∧
     deleteTodo ⟨[], 0⟩ ([' '] ++ oidHex 3 ++ ['\t']) none =
       deleteTodo ⟨[], 0⟩ (oidHex 3) none) :=
  ⟨⟨by decide, by decide, by decide, by decide⟩,
   trimmed_id_same_record ⟨[], 0⟩ [' '] (oidHex 3) ['\t'] (.ok ⟨"t", true⟩)
     none none (by decide) (by decide) (by decide) (by decide)⟩

/-- The uniform response envelope of the specification: a JSON object that
contains a `message` key and whose keys are among `message`, `data`,
`error`. -/
def isEnvelope : JVal → Bool
  | .obj fs =>
      fs.any (fun p => p.1 == "message") &&
      fs.all (fun p => p.1 == "message" || p.1 == "data" || p.1 == "error")
  | _ => false

theorem isEnvelope_msg (v : JVal) :
    isEnvelope (.obj [("message", v)]) = true := rfl

theorem isEnvelope_msgData (v w : JVal) :
    isEnvelope (.obj [("message", v), ("data", w)]) = true := rfl

theorem isEnvelope_msgError (v w : JVal) :
    isEnvelope (.obj [("message", v), ("error", w)]) = true := rfl

/-- Claim C8 (counterexample): the delete handler's malformed-identifier
response has a bare string body, not the `{message, data|error}` envelope. -/
theorem deleteTodo_bare_string_response :
    ¬ (∀ r ∈ (deleteTodo ⟨[], 0⟩ ['z', 'z'] none).responses,
        isEnvelope r.2 = true) := by
  intro hall
  have hresp : (deleteTodo ⟨[], 0⟩ ['z', 'z'] none).responses =
      [(400, .str "the provided hex string is not a valid ObjectID")] := rfl
  have h := hall (400, .str "the provided hex string is not a valid ObjectID")
    (by rw [hresp]; exact List.mem_singleton.mpr rfl)
  simp [isEnvelope] at h

/-- Claim C8 (amended): every handler response body is an envelope object
containing a `message` key, with three deviations: the create success
response carries its payload under the key `ID` (not `data`), and the update
decode-failure and delete malformed-identifier responses are bare error
strings. -/
theorem responses_envelope_amended :
    (∀ s fo, ∀ r ∈ (getTodos s fo).responses, isEnvelope r.2 = true) ∧
    (∀ s b now ie, ∀ r ∈ (createTodo s b now ie).responses,
      isEnvelope r.2 = true ∨
      ∃ k, r = (201, .obj [("message", .str "Todo created successfully"),
                           ("ID", .oid k)])) ∧
    (∀ s ids b e, ∀ r ∈ (updateTodo s ids b e).responses,
      isEnvelope r.2 = true ∨
      ∃ em fl, b = .fail em fl ∧ r = (400, .str em)) ∧
    (∀ s ids e, ∀ r ∈ (deleteTodo s ids e).responses,
      isEnvelope r.2 = true ∨
      ∃ em, objectIDFromHexList (trimList ids) = .error em ∧
        r = (400, .str em)) := by
  refine ⟨?_, ?_, ?_, ?_⟩
  · intro s fo r hr
    cases fo with
    | ok =>
        rcases List.mem_singleton.mp hr with rfl
        exact isEnvelope_msgData _ _
    | findErr e =>
        rcases List.mem_singleton.mp hr with rfl
        exact isEnvelope_msgError _ _
    | cursorErr e => cases hr
  · intro s b now ie r hr
    cases b with
    | fail em fl =>
        rcases List.mem_singleton.mp hr with rfl
        exact Or.inl (isEnvelope_msg _)
    | ok req =>
        by_cases ht : req.title = ""
        · simp only [createTodo, ht, if_pos] at hr
          rcases List.mem_singleton.mp hr with rfl
          exact Or.inl (isEnvelope_msg _)
        · cases ie with
          | some e =>
              simp only [createTodo, ht, if_neg, ite_false] at hr
              rcases List.mem_singleton.mp hr with rfl
              exact Or.inl (isEnvelope_msgError _ _)
          | none =>
              simp only [createTodo, ht, if_neg, ite_false] at hr
              rcases List.mem_singleton.mp hr with rfl
              exact Or.inr ⟨s.nextId + 1, rfl⟩
  · intro s ids b e r hr
    unfold updateTodo at hr
    cases hp : objectIDFromHexList (trimList ids) with
    | error err =>
        rw [hp] at hr
        rcases List.mem_singleton.mp hr with rfl
        exact Or.inl (isEnvelope_msgError _ _)
    | ok res =>
        rw [hp] at hr
        dsimp only at hr
        cases b with
        | ok v =>
            dsimp only at hr
            by_cases ht : v.title = ""
            · rw [if_pos ht] at hr
              rcases List.mem_singleton.mp hr with rfl
              exact Or.inl (isEnvelope_msg _)
            · rw [if_neg ht] at hr
              cases e with
              | some err =>
                  rcases List.mem_singleton.mp hr with rfl
                  exact Or.inl (isEnvelope_msgError _ _)
              | none =>
                  rcases List.mem_singleton.mp hr with rfl
                  exact Or.inl (isEnvelope_msgData _ _)
        | fail em fl =>
            dsimp only at hr
            by_cases ht : fl.title = ""
            · rw [if_pos ht] at hr
              rcases List.mem_cons.mp hr with rfl | hr2
              · exact Or.inr ⟨em, fl, rfl, rfl⟩
              · rcases List.mem_singleton.mp hr2 with rfl
                exact Or.inl (isEnvelope_msg _)
            · rw [if_neg ht] at hr
              cases e with
              | some err =>
                  rcases List.mem_cons.mp hr with rfl | hr2
                  · exact Or.inr ⟨em, fl, rfl, rfl⟩
                  · rcases List.mem_singleton.mp hr2 with rfl
                    exact Or.inl (isEnvelope_msgError _ _)
              | none =>
                  rcases List.mem_cons.mp hr with rfl | hr2
                  · exact Or.inr ⟨em, fl, rfl, rfl⟩
                  · rcases List.mem_singleton.mp hr2 with rfl
                    exact Or.inl (isEnvelope_msgData _ _)
  · intro s ids e r hr
    unfold deleteTodo at hr
    cases hp : objectIDFromHexList (trimList ids) with
    | error err =>
        rw [hp] at hr
        rcases List.mem_singleton.mp hr with rfl
        exact Or.inr ⟨err, rfl, rfl⟩
    | ok res =>
        rw [hp] at hr
        cases e with
        | some err =>
            rcases List.mem_singleton.mp hr with rfl
            exact Or.inl (isEnvelope_msgError _ _)
        | none =>
            rcases List.mem_singleton.mp hr with rfl
            exact Or.inl (isEnvelope_msgData _ _)

/-- Witness for C8 (amended) at a concrete list response. -/
theorem responses_envelope_amended_witness :
    (200, JVal.obj [("message", JVal.str "All todos retrieved"),
                    ("data", JVal.arr [])]) ∈
      (getTodos ⟨[], 0⟩ .ok).responses ∧
    isEnvelope (JVal.obj [("message", JVal.str "All todos retrieved"),
                          ("data", JVal.arr [])]) = true :=
  ⟨List.mem_singleton.mpr rfl,
   responses_envelope_amended.1 ⟨[], 0⟩ .ok _ (List.mem_singleton.mpr rfl)⟩

end TodoApp
